import Mathlib

/-!
# OpenVDB data source for Mitsuba: grid pool and sampling facade

A shallow embedding of `src/vdbvolume.cpp`.

* `double` and `Float` values are exact rationals; rounding is not modelled.
* `std::map` is an association list searched from the front (`find`), with
  `insert` leaving an existing key untouched, as `std::map::insert` does.
* The process-wide `s_vdbGridPool` is threaded explicitly in a `World`, next to a
  log of the calls made to the OpenVDB file reader.
* A C++ exception inside the `try` block of `open()` is a `false` flag returned
  together with the state reached when it was thrown.
-/

namespace VdbVolume

/-! ## Numeric data -/

/-- The `openvdb::math::Vec3d` vectors. -/
structure Vec3d where
  x : ℚ
  y : ℚ
  z : ℚ
deriving DecidableEq

/-- The `openvdb::Vec3i` vectors. -/
structure Vec3i where
  x : ℤ
  y : ℤ
  z : ℤ
deriving DecidableEq

/-- Mitsuba `Point`. -/
structure Point where
  x : ℚ
  y : ℚ
  z : ℚ
deriving DecidableEq

/-- Mitsuba `AABB`. -/
structure AABB where
  min : Point
  max : Point
deriving DecidableEq

/-- The constant `std::numeric_limits<double>::max()`. -/
def DBL_MAX : ℚ := 2 ^ 1024 - 2 ^ 971

/-- The one-argument constructor `openvdb::math::Vec3d(v)`: all three components are `v`. -/
def Vec3d.splat (v : ℚ) : Vec3d := ⟨v, v, v⟩

/-- The function `openvdb::math::minComponent`: component-wise minimum. -/
def minComponent (a b : Vec3d) : Vec3d := ⟨min a.x b.x, min a.y b.y, min a.z b.z⟩

/-- The function `openvdb::math::maxComponent`: component-wise maximum. -/
def maxComponent (a b : Vec3d) : Vec3d := ⟨max a.x b.x, max a.y b.y, max a.z b.z⟩

/-- Component-wise order on vectors. -/
def Vec3d.le (a b : Vec3d) : Prop := a.x ≤ b.x ∧ a.y ≤ b.y ∧ a.z ≤ b.z

/-- Component-wise order on integer vectors. -/
def Vec3i.le (a b : Vec3i) : Prop := a.x ≤ b.x ∧ a.y ≤ b.y ∧ a.z ≤ b.z

/-- What `openvdb::FloatGrid` offers to this file. -/
structure FloatGrid where
  /-- The pair `(valMin, valMax)` written by `evalMinMax`. -/
  evalMinMax : ℚ × ℚ
  /-- Box sampling at a world point,
  `GridSampler<FloatTree, BoxSampler>::wsSample`. -/
  wsSample : Vec3d → ℚ

/-- A grid behind an `openvdb::GridBase::Ptr`. -/
structure GridBase where
  /-- Identity of the shared pointer. -/
  handle : Nat
  /-- Result of `constTransform().voxelSize()`. -/
  voxelSize : Vec3d
  /-- Result of `gridPtrCast<FloatGrid>`: `none` is the null pointer returned for a
  grid of another value type. -/
  asFloat : Option FloatGrid

/-! ## `std::map` -/

/-- Method `std::map::find`: the value stored under `k`, `none` for `end()`. -/
def find {V : Type} (k : String) : List (String × V) → Option V
  | [] => none
  | (k', v) :: rest => if k' = k then some v else find k rest

/-- Method `std::map::insert`: adds the pair unless the key is already there. -/
def insert {V : Type} (k : String) (v : V) (m : List (String × V)) : List (String × V) :=
  match find k m with
  | some _ => m
  | none => (k, v) :: m

/-- Writing through an iterator obtained from `find`: the entry found for `k` is
replaced by `f` of it. -/
def modify {V : Type} (k : String) (f : V → V) : List (String × V) → List (String × V)
  | [] => []
  | (k', v) :: rest => if k' = k then (k', f v) :: rest else (k', v) :: modify k f rest

/-- The struct `VdbGridSet`. -/
structure VdbGridSet where
  m_grids : List (String × GridBase)

/-- The struct `VdbGridPool`. -/
structure VdbGridPool where
  m_gridSets : List (String × VdbGridSet)

/-! ## The file reader -/

/-- One element of `readAllGridMetadata()`: a grid without its tree. -/
structure GridMeta where
  /-- Result of `getName()`. -/
  name : String
  /-- Result of `metaValue<Vec3i>(META_FILE_BBOX_MIN)`; `none` when the call throws. -/
  bboxMin : Option Vec3i
  /-- Result of `metaValue<Vec3i>(META_FILE_BBOX_MAX)`; `none` when the call throws. -/
  bboxMax : Option Vec3i
  /-- The index-to-world transform of the grid. -/
  indexToWorld : Vec3i → Vec3d

/-- Outcome of `openvdb::io::File::open()`. -/
inductive OpenResult where
  | throws
  | returnsFalse
  | returnsTrue
deriving DecidableEq

/-- An `openvdb::io::File` as `open()` sees it. -/
structure VdbFile where
  /-- Outcome of `file->open()`. -/
  openResult : OpenResult
  /-- Result of `file->readAllGridMetadata()`; `none` when the call throws. -/
  readAllGridMetadata : Option (List GridMeta)
  /-- Result of `file->readGrid(name)`; `none` when the call throws. -/
  readGrid : String → Option GridBase

/-- Calls made to the file reader. -/
inductive FileEvent where
  /-- A call `file->open()` on the file of that name. -/
  | fileOpen (filename : String)
  /-- A call `file->readGrid(fieldname)` on the file of that name. -/
  | readGrid (filename : String) (fieldname : String)
deriving DecidableEq

/-- The global state: the pool `s_vdbGridPool` and the log of reader calls. -/
structure World where
  pool : VdbGridPool
  log : List FileEvent

/-- Number of times the file `filename` has been opened. -/
def loadCount (filename : String) (log : List FileEvent) : Nat :=
  log.count (FileEvent.fileOpen filename)

/-! ## `VdbDataSource` -/

/-- The properties read by the constructor. -/
structure Properties where
  filename : String
  fieldname : String
  /-- Value of `customStepSize` when `hasProperty("customStepSize")`. -/
  customStepSize : Option ℚ

/-- The members of `VdbDataSource`; `m_aabb` is inherited from `VolumeDataSource`. -/
structure VdbDataSource where
  m_filename : String
  m_fieldname : String
  m_customStepSize : ℚ
  m_aabb : AABB

/-- State of the `for` loop in `open()`. -/
structure LoopState where
  pool : VdbGridPool
  bbMin : Vec3d
  bbMax : Vec3d
  log : List FileEvent

/-- The `for` loop of `open()` over the grids of `readAllGridMetadata()`. The flag is
`false` when an exception left the loop. -/
def openLoop (file : VdbFile) (filename : String) :
    List GridMeta → LoopState → Bool × LoopState
  | [], s => (true, s)
  | m :: rest, s =>
    match m.bboxMin with
    | none => (false, s)
    | some bbMinI =>
      match m.bboxMax with
      | none => (false, s)
      | some bbMaxI =>
        let bbMin := minComponent s.bbMin (m.indexToWorld bbMinI)
        let bbMax := maxComponent s.bbMax (m.indexToWorld bbMaxI)
        let log := FileEvent.readGrid filename m.name :: s.log
        match file.readGrid m.name with
        | none => (false, { pool := s.pool, bbMin := bbMin, bbMax := bbMax, log := log })
        | some g =>
          openLoop file filename rest
            { pool := ⟨modify filename
                (fun gs => ⟨insert m.name g gs.m_grids⟩) s.pool.m_gridSets⟩,
              bbMin := bbMin, bbMax := bbMax, log := log }

/-- Method `VdbDataSource::open`. Returns `success`, the object (its `m_aabb` may have
been written) and the new global state. -/
def VdbDataSource.open_ (fs : String → VdbFile) (self : VdbDataSource) (w : World) :
    Bool × VdbDataSource × World :=
  let file := fs self.m_filename
  let log1 := FileEvent.fileOpen self.m_filename :: w.log
  match file.openResult with
  | OpenResult.throws => (false, self, { pool := w.pool, log := log1 })
  | OpenResult.returnsFalse => (false, self, { pool := w.pool, log := log1 })
  | OpenResult.returnsTrue =>
    let pool1 : VdbGridPool := ⟨insert self.m_filename ⟨[]⟩ w.pool.m_gridSets⟩
    match file.readAllGridMetadata with
    | none => (false, self, { pool := pool1, log := log1 })
    | some grids =>
      match openLoop file self.m_filename grids
          { pool := pool1, bbMin := Vec3d.splat DBL_MAX,
            bbMax := Vec3d.splat (-DBL_MAX), log := log1 } with
      | (false, s) => (false, self, { pool := s.pool, log := s.log })
      | (true, s) =>
        (true,
          { self with
            m_aabb := ⟨⟨s.bbMin.x, s.bbMin.y, s.bbMin.z⟩, ⟨s.bbMax.x, s.bbMax.y, s.bbMax.z⟩⟩ },
          { pool := s.pool, log := s.log })

/-- Constructor `VdbDataSource(const Properties &)`. `Log(EError, ...)` raises, which
is the `Except.error` result; `base` is the `m_aabb` left by the base-class
constructor `VolumeDataSource(props)`. -/
def VdbDataSource.construct (fs : String → VdbFile) (base : AABB) (props : Properties)
    (w : World) : Except String VdbDataSource × World :=
  let self : VdbDataSource :=
    { m_filename := props.filename, m_fieldname := props.fieldname,
      m_customStepSize := (match props.customStepSize with
        | some v => v
        | none => 0),
      m_aabb := base }
  match find self.m_filename w.pool.m_gridSets with
  | none =>
    match self.open_ fs w with
    | (true, self1, w1) =>
      match find self.m_filename w1.pool.m_gridSets with
      | none => (Except.error "end() dereferenced", w1)
      | some gs =>
        match find self.m_fieldname gs.m_grids with
        | none => (Except.error "Can't get the specific field from the file to read.", w1)
        | some _ => (Except.ok self1, w1)
    | (false, _, w1) => (Except.error "Can't open the file.", w1)
  | some gs =>
    match find self.m_fieldname gs.m_grids with
    | none => (Except.error "Opened the file but can't get the field.", w)
    | some _ => (Except.ok self, w)

/-- The grid that `(m_filename, m_fieldname)` resolves to in the pool: the two nested
`find` calls shared by the query methods. -/
def VdbDataSource.resolve (self : VdbDataSource) (pool : VdbGridPool) : Option GridBase :=
  match find self.m_filename pool.m_gridSets with
  | none => none
  | some gs => find self.m_fieldname gs.m_grids

/-- Method `VdbDataSource::lookupFloat`. The result is `none` when the null pointer of
a failed `gridPtrCast` is dereferenced. -/
def VdbDataSource.lookupFloat (self : VdbDataSource) (p : Point) (w : World) :
    Option ℚ × World :=
  let data : ℚ := 0
  match find self.m_filename w.pool.m_gridSets with
  | some gs =>
    match find self.m_fieldname gs.m_grids with
    | some grid =>
      match grid.asFloat with
      | some floatGrid => (some (floatGrid.wsSample ⟨p.x, p.y, p.z⟩), w)
      | none => (none, w)
    | none => (some data, w)
  | none => (some data, w)

/-- Method `VdbDataSource::getStepSize`. -/
def VdbDataSource.getStepSize (self : VdbDataSource) (w : World) : ℚ × World :=
  let stepSize : ℚ := 1
  let stepSize := if self.m_customStepSize > 0 then self.m_customStepSize else stepSize
  match find self.m_filename w.pool.m_gridSets with
  | some gs =>
    match find self.m_fieldname gs.m_grids with
    | some grid =>
      let voxelSize := grid.voxelSize
      (min (min voxelSize.x voxelSize.y) voxelSize.z * (1 / 2), w)
    | none => (stepSize, w)
  | none => (stepSize, w)

/-- A run of constructions naming the same file, one per `(fieldname, customStepSize)`
entry; a construction that raises leaves the global state it reached. -/
def constructMany (fs : String → VdbFile) (base : AABB) (filename : String) :
    List (String × Option ℚ) → World → World
  | [], w => w
  | (fieldname, step) :: rest, w =>
    constructMany fs base filename rest
      (VdbDataSource.construct fs base ⟨filename, fieldname, step⟩ w).2

/-! ## Vocabulary for the statements about loading -/

/-- Every call the loop makes for the field returns: both bounding-box metadata values
are there and the grid can be read. -/
def GridMeta.readable (file : VdbFile) (m : GridMeta) : Prop :=
  m.bboxMin.isSome = true ∧ m.bboxMax.isSome = true ∧ (file.readGrid m.name).isSome = true

/-- Unit voxels at the origin: index coordinates are world coordinates. -/
def identityTransform (i : Vec3i) : Vec3d := ⟨i.x, i.y, i.z⟩

/-- A quarter turn about the z axis: `(x, y, z)` goes to `(-y, x, z)`. -/
def quarterTurn (i : Vec3i) : Vec3d := ⟨-i.y, i.x, i.z⟩

/-- A float grid with voxel size `(0.1, 0.2, 0.05)`. -/
def densityGrid : GridBase :=
  { handle := 1, voxelSize := ⟨1 / 10, 1 / 5, 1 / 20⟩,
    asFloat := some { evalMinMax := (0, 5), wsSample := fun _ => 3 } }

/-- A float grid with unit voxels. -/
def temperatureGrid : GridBase :=
  { handle := 2, voxelSize := ⟨1, 1, 1⟩,
    asFloat := some { evalMinMax := (0, 900), wsSample := fun _ => 300 } }

/-- Metadata of a field `density` occupying index box `(0,0,0)..(1,1,1)`. -/
def densityMeta : GridMeta :=
  { name := "density", bboxMin := some ⟨0, 0, 0⟩, bboxMax := some ⟨1, 1, 1⟩,
    indexToWorld := identityTransform }

/-- Metadata of a field `temperature` occupying index box `(5,5,5)..(6,6,6)`, disjoint
from the box of `densityMeta`. -/
def temperatureMeta : GridMeta :=
  { name := "temperature", bboxMin := some ⟨5, 5, 5⟩, bboxMax := some ⟨6, 6, 6⟩,
    indexToWorld := identityTransform }

/-- A file with two readable fields. -/
def healthyFile : VdbFile :=
  { openResult := OpenResult.returnsTrue,
    readAllGridMetadata := some [densityMeta, temperatureMeta],
    readGrid := fun name =>
      if name = "density" then some densityGrid
      else if name = "temperature" then some temperatureGrid else none }

/-- A file that opens and lists two fields, but reading the grid of `temperature`
throws. -/
def damagedFile : VdbFile :=
  { openResult := OpenResult.returnsTrue,
    readAllGridMetadata := some [densityMeta, temperatureMeta],
    readGrid := fun name => if name = "density" then some densityGrid else none }

/-- A file with one field whose transform is a quarter turn. -/
def turnedFile : VdbFile :=
  { openResult := OpenResult.returnsTrue,
    readAllGridMetadata := some [{ densityMeta with indexToWorld := quarterTurn }],
    readGrid := fun name => if name = "density" then some densityGrid else none }

/-- A file that cannot be opened. -/
def missingFile : VdbFile :=
  { openResult := OpenResult.throws, readAllGridMetadata := none, readGrid := fun _ => none }

/-- A file system with three files. -/
def exampleFs (filename : String) : VdbFile :=
  if filename = "healthy.vdb" then healthyFile
  else if filename = "damaged.vdb" then damagedFile
  else if filename = "turned.vdb" then turnedFile
  else missingFile

/-- The state before anything was loaded. -/
def emptyWorld : World := { pool := ⟨[]⟩, log := [] }

/-- An inverted box, standing for the `m_aabb` of a freshly built `VolumeDataSource`. -/
def invalidAABB : AABB := ⟨⟨1, 1, 1⟩, ⟨-1, -1, -1⟩⟩

/-- The state after `healthy.vdb` was loaded. -/
def healthyWorld : World :=
  { pool := ⟨[("healthy.vdb",
      ⟨[("temperature", temperatureGrid), ("density", densityGrid)]⟩)]⟩,
    log := [FileEvent.readGrid "healthy.vdb" "temperature",
      FileEvent.readGrid "healthy.vdb" "density", FileEvent.fileOpen "healthy.vdb"] }

/-- The state after the failed load of `damaged.vdb`. -/
def damagedWorld : World :=
  { pool := ⟨[("damaged.vdb", ⟨[("density", densityGrid)]⟩)]⟩,
    log := [FileEvent.readGrid "damaged.vdb" "temperature",
      FileEvent.readGrid "damaged.vdb" "density", FileEvent.fileOpen "damaged.vdb"] }

/-- The box `(0,0,0)..(6,6,6)`: the union of the boxes of the two fields of
`healthyFile`. -/
def healthyBox : AABB := ⟨⟨0, 0, 0⟩, ⟨6, 6, 6⟩⟩

/-! ## Facts about the map operations -/

theorem find_insert_self {V : Type} (k : String) (v : V) (m : List (String × V)) :
    find k (insert k v m) = some ((find k m).getD v) := by
  unfold insert
  cases h : find k m with
  | none => simp [find]
  | some u => simp [h]

theorem find_insert_of_ne {V : Type} (k k2 : String) (v : V) (m : List (String × V))
    (hne : k ≠ k2) : find k2 (insert k v m) = find k2 m := by
  unfold insert
  cases h : find k m with
  | none => simp [find, hne]
  | some u => simp

theorem find_modify_self {V : Type} (k : String) (f : V → V) (m : List (String × V)) :
    find k (modify k f m) = (find k m).map f := by
  induction m with
  | nil => simp [modify, find]
  | cons kv rest ih =>
    obtain ⟨k1, v1⟩ := kv
    by_cases h : k1 = k
    · simp [modify, find, h]
    · simp [modify, find, h, ih]

theorem find_modify_of_ne {V : Type} (k k2 : String) (f : V → V) (m : List (String × V))
    (hne : k ≠ k2) : find k2 (modify k f m) = find k2 m := by
  induction m with
  | nil => simp [modify, find]
  | cons kv rest ih =>
    obtain ⟨k1, v1⟩ := kv
    by_cases h : k1 = k
    · have h2 : ¬ k1 = k2 := fun e => hne (h ▸ e)
      simp [modify, find, h, hne]
    · by_cases h2 : k1 = k2
      · subst h2
        simp [modify, find, h]
      · simp [modify, find, h, h2, ih]

/-! ## Facts about the loading loop -/

theorem openLoop_find_isSome (file : VdbFile) (S : String) (ms : List GridMeta)
    (s : LoopState) (h : (find S s.pool.m_gridSets).isSome = true) :
    (find S (openLoop file S ms s).2.pool.m_gridSets).isSome = true := by
  induction ms generalizing s with
  | nil => simpa [openLoop] using h
  | cons m rest ih =>
    unfold openLoop
    cases hmin : m.bboxMin with
    | none => simpa using h
    | some a =>
      cases hmax : m.bboxMax with
      | none => simpa using h
      | some b =>
        cases hg : file.readGrid m.name with
        | none => simpa using h
        | some g =>
          simp only
          apply ih
          simp only [find_modify_self]
          cases hf : find S s.pool.m_gridSets with
          | none => simp [hf] at h
          | some gs => simp

theorem openLoop_find_other (file : VdbFile) (S S2 : String) (ms : List GridMeta)
    (s : LoopState) (hne : S ≠ S2) :
    find S2 (openLoop file S ms s).2.pool.m_gridSets = find S2 s.pool.m_gridSets := by
  induction ms generalizing s with
  | nil => simp [openLoop]
  | cons m rest ih =>
    unfold openLoop
    cases hmin : m.bboxMin with
    | none => simp
    | some a =>
      cases hmax : m.bboxMax with
      | none => simp
      | some b =>
        cases hg : file.readGrid m.name with
        | none => simp
        | some g =>
          simp only
          rw [ih]
          simp only [find_modify_of_ne _ _ _ _ hne]

theorem openLoop_loadCount (file : VdbFile) (S S2 : String) (ms : List GridMeta)
    (s : LoopState) :
    loadCount S2 (openLoop file S ms s).2.log = loadCount S2 s.log := by
  induction ms generalizing s with
  | nil => simp [openLoop]
  | cons m rest ih =>
    unfold openLoop
    cases hmin : m.bboxMin with
    | none => simp
    | some a =>
      cases hmax : m.bboxMax with
      | none => simp
      | some b =>
        cases hg : file.readGrid m.name with
        | none => simp [loadCount]
        | some g =>
          simp only
          rw [ih]
          simp [loadCount]

theorem openLoop_true_iff (file : VdbFile) (S : String) (ms : List GridMeta) (s : LoopState) :
    (openLoop file S ms s).1 = true ↔ ∀ m ∈ ms, m.readable file := by
  induction ms generalizing s with
  | nil => simp [openLoop]
  | cons m rest ih =>
    unfold openLoop
    cases hmin : m.bboxMin with
    | none => simp [GridMeta.readable, hmin]
    | some a =>
      cases hmax : m.bboxMax with
      | none => simp [GridMeta.readable, hmax]
      | some b =>
        cases hg : file.readGrid m.name with
        | none => simp [GridMeta.readable, hg]
        | some g =>
          simp only [ih, List.mem_cons, forall_eq_or_imp, GridMeta.readable, hmin, hmax, hg,
            Option.isSome_some, and_self, true_and]

theorem openLoop_log_mono (file : VdbFile) (S : String) (ms : List GridMeta) (s : LoopState)
    (e : FileEvent) (he : e ∈ s.log) : e ∈ (openLoop file S ms s).2.log := by
  induction ms generalizing s with
  | nil => simpa [openLoop] using he
  | cons m rest ih =>
    unfold openLoop
    cases hmin : m.bboxMin with
    | none => simpa using he
    | some a =>
      cases hmax : m.bboxMax with
      | none => simpa using he
      | some b =>
        cases hg : file.readGrid m.name with
        | none => simp [he]
        | some g =>
          simp only
          apply ih
          simp [he]

theorem openLoop_log_reads (file : VdbFile) (S : String) (ms : List GridMeta) (s : LoopState)
    (hok : (openLoop file S ms s).1 = true) :
    ∀ m ∈ ms, FileEvent.readGrid S m.name ∈ (openLoop file S ms s).2.log := by
  induction ms generalizing s with
  | nil => simp
  | cons m rest ih =>
    unfold openLoop at hok ⊢
    cases hmin : m.bboxMin with
    | none => simp [hmin] at hok
    | some a =>
      cases hmax : m.bboxMax with
      | none => simp [hmin, hmax] at hok
      | some b =>
        cases hg : file.readGrid m.name with
        | none => simp [hmin, hmax, hg] at hok
        | some g =>
          simp only [hmin, hmax, hg] at hok
          intro m2 hm2
          simp only
          rcases List.mem_cons.mp hm2 with h | h
          · subst h
            apply openLoop_log_mono
            simp
          · exact ih _ hok m2 h

theorem openLoop_grids (file : VdbFile) (S : String) (ms : List GridMeta) (s : LoopState)
    (gs : VdbGridSet) (hgs : find S s.pool.m_gridSets = some gs)
    (hok : (openLoop file S ms s).1 = true) :
    ∃ gs2, find S (openLoop file S ms s).2.pool.m_gridSets = some gs2 ∧
      ∀ name : String, find name gs2.m_grids =
        match find name gs.m_grids with
        | some g => some g
        | none => if name ∈ ms.map GridMeta.name then file.readGrid name else none := by
  induction ms generalizing s gs with
  | nil =>
    refine ⟨gs, by simpa [openLoop] using hgs, ?_⟩
    intro name
    cases find name gs.m_grids <;> simp
  | cons m rest ih =>
    unfold openLoop at hok ⊢
    cases hmin : m.bboxMin with
    | none => simp [hmin] at hok
    | some a =>
      cases hmax : m.bboxMax with
      | none => simp [hmin, hmax] at hok
      | some b =>
        cases hg : file.readGrid m.name with
        | none => simp [hmin, hmax, hg] at hok
        | some g =>
          simp only [hmin, hmax, hg] at hok
          simp only
          obtain ⟨gs2, h1, h2⟩ := ih _ ⟨insert m.name g gs.m_grids⟩
            (by simp [find_modify_self, hgs]) hok
          refine ⟨gs2, h1, ?_⟩
          intro name
          rw [h2 name]
          by_cases hn : m.name = name
          · subst hn
            simp only [find_insert_self, List.map_cons, List.mem_cons, true_or, if_true]
            cases hf : find m.name gs.m_grids with
            | none => simp [hg]
            | some g0 => simp
          · have hn2 : ¬ name = m.name := fun e => hn e.symm
            simp only [find_insert_of_ne _ _ _ _ hn, List.map_cons, List.mem_cons, hn2,
              false_or]

/-! ## Facts about folding bounds -/

theorem open_loadCount (fs : String → VdbFile) (self : VdbDataSource) (w : World) :
    loadCount self.m_filename (self.open_ fs w).2.2.log
      = loadCount self.m_filename w.log + 1 := by
  cases hopen : (fs self.m_filename).openResult with
  | throws => simp [VdbDataSource.open_, hopen, loadCount]
  | returnsFalse => simp [VdbDataSource.open_, hopen, loadCount]
  | returnsTrue =>
    cases hmeta : (fs self.m_filename).readAllGridMetadata with
    | none => simp [VdbDataSource.open_, hopen, hmeta, loadCount]
    | some grids =>
      simp only [VdbDataSource.open_, hopen, hmeta]
      have hc := openLoop_loadCount (fs self.m_filename) self.m_filename self.m_filename grids
        { pool := ⟨insert self.m_filename ⟨[]⟩ w.pool.m_gridSets⟩,
          bbMin := Vec3d.splat DBL_MAX, bbMax := Vec3d.splat (-DBL_MAX),
          log := FileEvent.fileOpen self.m_filename :: w.log }
      generalize openLoop (fs self.m_filename) self.m_filename grids _ = r at hc ⊢
      obtain ⟨ok, s⟩ := r
      cases ok <;> simpa [loadCount] using hc

theorem open_find_isSome (fs : String → VdbFile) (self : VdbDataSource) (w : World)
    (hopen : (fs self.m_filename).openResult = OpenResult.returnsTrue) :
    (find self.m_filename (self.open_ fs w).2.2.pool.m_gridSets).isSome = true := by
  cases hmeta : (fs self.m_filename).readAllGridMetadata with
  | none => simp [VdbDataSource.open_, hopen, hmeta, find_insert_self]
  | some grids =>
    simp only [VdbDataSource.open_, hopen, hmeta]
    have hc := openLoop_find_isSome (fs self.m_filename) self.m_filename grids
        { pool := ⟨insert self.m_filename ⟨[]⟩ w.pool.m_gridSets⟩,
          bbMin := Vec3d.splat DBL_MAX, bbMax := Vec3d.splat (-DBL_MAX),
          log := FileEvent.fileOpen self.m_filename :: w.log }
        (by simp [find_insert_self])
    generalize openLoop (fs self.m_filename) self.m_filename grids _ = r at hc ⊢
    obtain ⟨ok, s⟩ := r
    cases ok <;> simpa using hc

theorem construct_world_of_fresh (fs : String → VdbFile) (base : AABB) (props : Properties)
    (w : World) (hfresh : find props.filename w.pool.m_gridSets = none) :
    (VdbDataSource.construct fs base props w).2
      = (VdbDataSource.open_ fs
          { m_filename := props.filename, m_fieldname := props.fieldname,
            m_customStepSize := (match props.customStepSize with
              | some v => v
              | none => 0),
            m_aabb := base } w).2.2 := by
  unfold VdbDataSource.construct
  simp only [hfresh]
  generalize VdbDataSource.open_ fs _ w = r
  obtain ⟨ok, self1, w1⟩ := r
  cases ok
  · rfl
  · simp only
    cases h1 : find props.filename w1.pool.m_gridSets with
    | none => rfl
    | some gs =>
      simp only
      cases h2 : find props.fieldname gs.m_grids <;> rfl

theorem construct_world_of_cached (fs : String → VdbFile) (base : AABB) (props : Properties)
    (w : World) (hcached : (find props.filename w.pool.m_gridSets).isSome = true) :
    (VdbDataSource.construct fs base props w).2 = w := by
  cases h : find props.filename w.pool.m_gridSets with
  | none => simp [h] at hcached
  | some gs =>
    cases h2 : find props.fieldname gs.m_grids <;>
      simp [VdbDataSource.construct, h, h2]

theorem constructMany_of_cached (fs : String → VdbFile) (base : AABB) (S : String)
    (later : List (String × Option ℚ)) (w : World)
    (hcached : (find S w.pool.m_gridSets).isSome = true) :
    constructMany fs base S later w = w := by
  induction later with
  | nil => rfl
  | cons c rest ih =>
    obtain ⟨fieldname, step⟩ := c
    unfold constructMany
    rw [construct_world_of_cached fs base ⟨S, fieldname, step⟩ w hcached]
    exact ih

theorem construct_fresh_of_loop (fs : String → VdbFile) (base : AABB) (props : Properties)
    (w : World) (ms : List GridMeta) (s : LoopState) (gs : VdbGridSet) (g : GridBase)
    (hfresh : find props.filename w.pool.m_gridSets = none)
    (hopen : (fs props.filename).openResult = OpenResult.returnsTrue)
    (hmeta : (fs props.filename).readAllGridMetadata = some ms)
    (hloop : openLoop (fs props.filename) props.filename ms
        { pool := ⟨insert props.filename ⟨[]⟩ w.pool.m_gridSets⟩,
          bbMin := Vec3d.splat DBL_MAX, bbMax := Vec3d.splat (-DBL_MAX),
          log := FileEvent.fileOpen props.filename :: w.log } = (true, s))
    (hgs : find props.filename s.pool.m_gridSets = some gs)
    (hg : find props.fieldname gs.m_grids = some g) :
    VdbDataSource.construct fs base props w
      = (Except.ok
          { m_filename := props.filename, m_fieldname := props.fieldname,
            m_customStepSize := (match props.customStepSize with
              | some v => v
              | none => 0),
            m_aabb := ⟨⟨s.bbMin.x, s.bbMin.y, s.bbMin.z⟩, ⟨s.bbMax.x, s.bbMax.y, s.bbMax.z⟩⟩ },
          { pool := s.pool, log := s.log }) := by
  simp [VdbDataSource.construct, VdbDataSource.open_, hfresh, hopen, hmeta, hloop, hgs, hg]

/-! ## Facts about the query methods -/

theorem resolve_eq_none_iff (self : VdbDataSource) (pool : VdbGridPool) :
    self.resolve pool = none ↔
      (find self.m_filename pool.m_gridSets = none ∨
        ∃ gs, find self.m_filename pool.m_gridSets = some gs ∧
          find self.m_fieldname gs.m_grids = none) := by
  unfold VdbDataSource.resolve
  cases h : find self.m_filename pool.m_gridSets with
  | none => simp
  | some gs => simp

theorem getStepSize_of_resolved (self : VdbDataSource) (w : World) (grid : GridBase)
    (hres : self.resolve w.pool = some grid) :
    self.getStepSize w
      = (min (min grid.voxelSize.x grid.voxelSize.y) grid.voxelSize.z * (1 / 2), w) := by
  unfold VdbDataSource.resolve at hres
  cases h : find self.m_filename w.pool.m_gridSets with
  | none => simp [h] at hres
  | some gs =>
    simp only [h] at hres
    simp [VdbDataSource.getStepSize, h, hres]

/-- When the file itself cannot be opened, `open()` returns `false` and leaves the pool
as it was. -/
theorem open_unopenable (fs : String → VdbFile) (self : VdbDataSource) (w : World)
    (hopen : (fs self.m_filename).openResult ≠ OpenResult.returnsTrue) :
    self.open_ fs w
      = (false, self, { pool := w.pool, log := FileEvent.fileOpen self.m_filename :: w.log }) := by
  cases h : (fs self.m_filename).openResult with
  | throws => simp [VdbDataSource.open_, h]
  | returnsFalse => simp [VdbDataSource.open_, h]
  | returnsTrue => exact absurd h hopen

/-- A construction that completes leaves a pool in which its `(filename, fieldname)`
resolves. -/
theorem construct_ok_resolves (fs : String → VdbFile) (base : AABB) (props : Properties)
    (w : World) (self : VdbDataSource)
    (hok : (VdbDataSource.construct fs base props w).1 = Except.ok self) :
    ∃ grid, VdbDataSource.resolve ⟨props.filename, props.fieldname, 0, base⟩
      (VdbDataSource.construct fs base props w).2.pool = some grid := by
  unfold VdbDataSource.construct at hok ⊢
  unfold VdbDataSource.resolve
  cases h : find props.filename w.pool.m_gridSets with
  | some gs =>
    simp only [h] at hok ⊢
    cases h2 : find props.fieldname gs.m_grids with
    | none => simp [h2] at hok
    | some g => simp [h, h2]
  | none =>
    simp only [h] at hok ⊢
    generalize VdbDataSource.open_ fs _ w = r at hok ⊢
    obtain ⟨ok, self1, w1⟩ := r
    cases ok
    · simp at hok
    · simp only at hok ⊢
      cases h1 : find props.filename w1.pool.m_gridSets with
      | none => simp [h1] at hok
      | some gs =>
        simp only [h1] at hok ⊢
        cases h2 : find props.fieldname gs.m_grids with
        | none => simp [h2] at hok
        | some g => simp [h1, h2]

/-- A construction after which the pool holds the file without the field raised. -/
theorem construct_missing_field_raises (fs : String → VdbFile) (base : AABB)
    (props : Properties) (w : World) (gs : VdbGridSet)
    (hgs : find props.filename (VdbDataSource.construct fs base props w).2.pool.m_gridSets
      = some gs)
    (hmiss : find props.fieldname gs.m_grids = none) :
    ∃ msg, (VdbDataSource.construct fs base props w).1 = Except.error msg := by
  cases hr : (VdbDataSource.construct fs base props w).1 with
  | error msg => exact ⟨msg, rfl⟩
  | ok self =>
    obtain ⟨grid, hres⟩ := construct_ok_resolves fs base props w self hr
    simp [VdbDataSource.resolve, hgs, hmiss] at hres

/-- A construction that finds the file cached keeps the box of the base-class
constructor. -/
theorem construct_cached_aabb (fs : String → VdbFile) (base : AABB) (props : Properties)
    (w : World) (self : VdbDataSource)
    (hcached : (find props.filename w.pool.m_gridSets).isSome = true)
    (hok : (VdbDataSource.construct fs base props w).1 = Except.ok self) :
    self.m_aabb = base := by
  cases h : find props.filename w.pool.m_gridSets with
  | none => simp [h] at hcached
  | some gs =>
    cases h2 : find props.fieldname gs.m_grids with
    | none => simp [VdbDataSource.construct, h, h2] at hok
    | some g =>
      simp only [VdbDataSource.construct, h, h2, Except.ok.injEq] at hok
      subst hok
      rfl

/-! ## Evaluation on the example sources -/

theorem DBL_MAX_pos : (0 : ℚ) < DBL_MAX := by
  unfold DBL_MAX
  norm_num

theorem temperature_ne_density : ¬ "temperature" = "density" := by decide

theorem density_ne_temperature : ¬ "density" = "temperature" := by decide

theorem damaged_ne_healthy : ¬ "damaged.vdb" = "healthy.vdb" := by decide

theorem min_DBL_MAX_zero : min DBL_MAX (0 : ℚ) = 0 := min_eq_right DBL_MAX_pos.le

theorem max_neg_DBL_MAX_one : max (-DBL_MAX) (1 : ℚ) = 1 :=
  max_eq_right (by linarith [DBL_MAX_pos])

theorem construct_healthy_density_fresh (step : Option ℚ) :
    VdbDataSource.construct exampleFs invalidAABB ⟨"healthy.vdb", "density", step⟩ emptyWorld
      = (Except.ok ⟨"healthy.vdb", "density", (match step with
          | some v => v
          | none => 0), healthyBox⟩, healthyWorld) := by
  simp [VdbDataSource.construct, VdbDataSource.open_, openLoop, find, insert, modify,
    exampleFs, healthyFile, emptyWorld, healthyWorld, healthyBox, densityMeta,
    temperatureMeta, identityTransform, minComponent, maxComponent, Vec3d.splat,
    min_DBL_MAX_zero, max_neg_DBL_MAX_one, temperature_ne_density, density_ne_temperature]

theorem construct_healthy_density_cached (step : Option ℚ) :
    VdbDataSource.construct exampleFs invalidAABB ⟨"healthy.vdb", "density", step⟩ healthyWorld
      = (Except.ok ⟨"healthy.vdb", "density", (match step with
          | some v => v
          | none => 0), invalidAABB⟩, healthyWorld) := by
  simp [VdbDataSource.construct, find, healthyWorld, temperature_ne_density]

theorem construct_damaged_density_fresh (step : Option ℚ) :
    VdbDataSource.construct exampleFs invalidAABB ⟨"damaged.vdb", "density", step⟩ emptyWorld
      = (Except.error "Can't open the file.", damagedWorld) := by
  simp [VdbDataSource.construct, VdbDataSource.open_, openLoop, find, insert, modify,
    exampleFs, damagedFile, emptyWorld, damagedWorld, densityMeta, temperatureMeta,
    temperature_ne_density, density_ne_temperature, damaged_ne_healthy]

theorem construct_damaged_density_cached (step : Option ℚ) :
    VdbDataSource.construct exampleFs invalidAABB ⟨"damaged.vdb", "density", step⟩ damagedWorld
      = (Except.ok ⟨"damaged.vdb", "density", (match step with
          | some v => v
          | none => 0), invalidAABB⟩, damagedWorld) := by
  simp [VdbDataSource.construct, find, damagedWorld]

theorem resolve_healthy_density (step : ℚ) (box : AABB) :
    VdbDataSource.resolve ⟨"healthy.vdb", "density", step, box⟩ healthyWorld.pool
      = some densityGrid := by
  simp [VdbDataSource.resolve, find, healthyWorld, temperature_ne_density]

/-! ## The pool: loading and sharing -/

/-- C1 (load once, share many). From a pool without an entry for `S` whose file opens,
a run of constructions naming `S`, `first` followed by any `later` ones with any field
names: the first construction opens the file once and leaves an entry for `S` in the
pool, and after any number `k` of the later constructions the file has still been
opened exactly once and the grid set stored under `S` is the one the first
construction left. -/
theorem load_once_share_many (fs : String → VdbFile) (base : AABB) (S : String) (w : World)
    (first : String × Option ℚ) (later : List (String × Option ℚ))
    (hfresh : find S w.pool.m_gridSets = none)
    (hopen : (fs S).openResult = OpenResult.returnsTrue) :
    loadCount S (constructMany fs base S [first] w).log = loadCount S w.log + 1 ∧
    (∃ gs, find S (constructMany fs base S [first] w).pool.m_gridSets = some gs) ∧
    ∀ k : Nat,
      loadCount S (constructMany fs base S (first :: later.take k) w).log
          = loadCount S w.log + 1 ∧
        find S (constructMany fs base S (first :: later.take k) w).pool.m_gridSets
          = find S (constructMany fs base S [first] w).pool.m_gridSets := by
  obtain ⟨fieldname, step⟩ := first
  have hw1 := construct_world_of_fresh fs base ⟨S, fieldname, step⟩ w hfresh
  have hcount : loadCount S (VdbDataSource.construct fs base ⟨S, fieldname, step⟩ w).2.log
      = loadCount S w.log + 1 := by
    rw [hw1]
    exact open_loadCount fs ⟨S, fieldname, _, base⟩ w
  have hsome : (find S
      (VdbDataSource.construct fs base ⟨S, fieldname, step⟩ w).2.pool.m_gridSets).isSome
        = true := by
    rw [hw1]
    exact open_find_isSome fs ⟨S, fieldname, _, base⟩ w hopen
  have hone : constructMany fs base S [(fieldname, step)] w
      = (VdbDataSource.construct fs base ⟨S, fieldname, step⟩ w).2 := rfl
  have hmany : ∀ l : List (String × Option ℚ),
      constructMany fs base S ((fieldname, step) :: l) w
        = (VdbDataSource.construct fs base ⟨S, fieldname, step⟩ w).2 := by
    intro l
    show constructMany fs base S l (VdbDataSource.construct fs base ⟨S, fieldname, step⟩ w).2
      = _
    exact constructMany_of_cached fs base S l _ hsome
  refine ⟨?_, ?_, ?_⟩
  · rw [hone]
    exact hcount
  · rw [hone]
    exact Option.isSome_iff_exists.mp hsome
  · intro k
    rw [hmany, hone]
    exact ⟨hcount, rfl⟩

theorem load_once_share_many_witness :
    loadCount "healthy.vdb"
        (constructMany exampleFs invalidAABB "healthy.vdb"
          [("density", none), ("temperature", none), ("velocity", some 2)] emptyWorld).log
      = 1 := by
  have h := ((load_once_share_many exampleFs invalidAABB "healthy.vdb" emptyWorld
    ("density", none) [("temperature", none), ("velocity", some 2)] rfl
    (by simp [exampleFs, healthyFile])).2.2 2).1
  simpa [emptyWorld, loadCount] using h

/-- C2 (fail-fast construction), evaluated where it breaks. Constructing a source for
`density` of `damaged.vdb` from the empty pool raises, although after the load step the
pool maps `damaged.vdb` to a grid set that contains `density`. -/
theorem construct_raises_though_resolved :
    (VdbDataSource.construct exampleFs invalidAABB ⟨"damaged.vdb", "density", none⟩
        emptyWorld).1 = Except.error "Can't open the file." ∧
    VdbDataSource.resolve ⟨"damaged.vdb", "density", 0, invalidAABB⟩
        (VdbDataSource.construct exampleFs invalidAABB ⟨"damaged.vdb", "density", none⟩
          emptyWorld).2.pool = some densityGrid := by
  rw [construct_damaged_density_fresh]
  refine ⟨rfl, ?_⟩
  simp [VdbDataSource.resolve, find, damagedWorld]

/-- C3 (recorded bounding box), evaluated where it breaks. Built one after the other from
the empty pool for `density` of `healthy.vdb`, the first source records the union box
`(0,0,0)..(6,6,6)` and the second, which finds the file cached, keeps the box of the
base-class constructor. -/
theorem cached_construction_keeps_base_aabb :
    VdbDataSource.construct exampleFs invalidAABB ⟨"healthy.vdb", "density", none⟩ emptyWorld
      = (Except.ok ⟨"healthy.vdb", "density", 0, healthyBox⟩, healthyWorld) ∧
    VdbDataSource.construct exampleFs invalidAABB ⟨"healthy.vdb", "density", none⟩ healthyWorld
      = (Except.ok ⟨"healthy.vdb", "density", 0, invalidAABB⟩, healthyWorld) ∧
    invalidAABB ≠ healthyBox := by
  refine ⟨construct_healthy_density_fresh none, construct_healthy_density_cached none, ?_⟩
  simp [invalidAABB, healthyBox]

/-- C4 (atomic load failure), evaluated where it breaks. On `damaged.vdb`, whose second
grid cannot be read, `open()` returns `false` and leaves an entry for the file in the
pool, holding the grid read before the failure; a later construction naming the file
finds that entry and succeeds without opening the file again. -/
theorem failed_load_leaves_entry :
    VdbDataSource.open_ exampleFs ⟨"damaged.vdb", "density", 0, invalidAABB⟩ emptyWorld
      = (false, ⟨"damaged.vdb", "density", 0, invalidAABB⟩, damagedWorld) ∧
    find "damaged.vdb" emptyWorld.pool.m_gridSets = none ∧
    (find "damaged.vdb" damagedWorld.pool.m_gridSets).isSome = true ∧
    VdbDataSource.construct exampleFs invalidAABB ⟨"damaged.vdb", "density", none⟩
        damagedWorld
      = (Except.ok ⟨"damaged.vdb", "density", 0, invalidAABB⟩, damagedWorld) ∧
    loadCount "damaged.vdb" damagedWorld.log = 1 := by
  refine ⟨?_, rfl, ?_, construct_damaged_density_cached none, ?_⟩
  · simp [VdbDataSource.open_, openLoop, find, insert, modify, exampleFs, damagedFile,
      emptyWorld, damagedWorld, densityMeta, temperatureMeta, temperature_ne_density,
      density_ne_temperature, damaged_ne_healthy]
  · simp [find, damagedWorld]
  · simp [loadCount, damagedWorld]

/-! ## The sampling facade -/

/-- C5 (step-size override), evaluated where it breaks. A source built for `density` of
`healthy.vdb` with the override `2` keeps `2` in `m_customStepSize`, and
`getStepSize()` returns `0.025`, half the smallest voxel extent of the grid. -/
theorem override_overwritten_by_voxel_size :
    VdbDataSource.construct exampleFs invalidAABB ⟨"healthy.vdb", "density", some 2⟩
        emptyWorld
      = (Except.ok ⟨"healthy.vdb", "density", 2, healthyBox⟩, healthyWorld) ∧
    VdbDataSource.getStepSize ⟨"healthy.vdb", "density", 2, healthyBox⟩ healthyWorld
      = (1 / 40, healthyWorld) := by
  refine ⟨construct_healthy_density_fresh (some 2), ?_⟩
  rw [getStepSize_of_resolved _ _ densityGrid (resolve_healthy_density 2 healthyBox)]
  norm_num [densityGrid]

/-- C8 (defensive lookup). When `(filename, fieldname)` does not resolve in the pool
(no entry for the file, or no such field in its grid set), `lookupFloat(p)` returns `0`
for every point `p`, without an error and with the pool and the reader log unchanged. -/
theorem lookup_unresolved_is_zero (self : VdbDataSource) (p : Point) (w : World)
    (hun : find self.m_filename w.pool.m_gridSets = none ∨
      ∃ gs, find self.m_filename w.pool.m_gridSets = some gs ∧
        find self.m_fieldname gs.m_grids = none) :
    self.lookupFloat p w = (some 0, w) := by
  unfold VdbDataSource.lookupFloat
  rcases hun with h | ⟨gs, h, h2⟩
  · simp [h]
  · simp [h, h2]

theorem lookup_unresolved_is_zero_witness :
    VdbDataSource.lookupFloat ⟨"healthy.vdb", "velocity", 0, invalidAABB⟩ ⟨1, 2, 3⟩
        healthyWorld = (some 0, healthyWorld) :=
  lookup_unresolved_is_zero ⟨"healthy.vdb", "velocity", 0, invalidAABB⟩ ⟨1, 2, 3⟩
    healthyWorld
    (Or.inr ⟨⟨[("temperature", temperatureGrid), ("density", densityGrid)]⟩,
      by simp [find, healthyWorld], by simp [find]⟩)

/-! ## Loading a whole source -/

/-- C9 as stated fails. `damaged.vdb` opens and holds a readable field `density`, yet
constructing a source for `density` raises, because the grid of `temperature` cannot be
read; and for `healthy.vdb` the load made by constructing a source for `density` also
reads the grid of `temperature`. -/
theorem other_fields_are_read_and_required :
    damagedFile.openResult = OpenResult.returnsTrue ∧
    densityMeta.readable damagedFile ∧
    (VdbDataSource.construct exampleFs invalidAABB ⟨"damaged.vdb", "density", none⟩
        emptyWorld).1 = Except.error "Can't open the file." ∧
    FileEvent.readGrid "healthy.vdb" "temperature" ∈
      (VdbDataSource.construct exampleFs invalidAABB ⟨"healthy.vdb", "density", none⟩
        emptyWorld).2.log := by
  refine ⟨rfl, ?_, ?_, ?_⟩
  · simp [GridMeta.readable, densityMeta, damagedFile]
  · rw [construct_damaged_density_fresh]
  · rw [construct_healthy_density_fresh]
    simp [healthyWorld]

/-- C9, amended. For a file that opens and whose every listed field has both
bounding-box metadata values and a readable grid, and that lists the field `fieldname`,
constructing a source for `fieldname` from a pool without an entry for the file
succeeds, whatever other fields are listed; afterwards `(filename, fieldname)`
resolves in the pool to the grid the file yields for `fieldname`, and the load has
read the grid of every listed field. -/
theorem field_bound_when_all_readable (fs : String → VdbFile) (base : AABB)
    (props : Properties) (w : World) (ms : List GridMeta)
    (hfresh : find props.filename w.pool.m_gridSets = none)
    (hopen : (fs props.filename).openResult = OpenResult.returnsTrue)
    (hmeta : (fs props.filename).readAllGridMetadata = some ms)
    (hall : ∀ m ∈ ms, m.readable (fs props.filename))
    (hlisted : props.fieldname ∈ ms.map GridMeta.name) :
    ∃ (self : VdbDataSource) (grid : GridBase),
      (VdbDataSource.construct fs base props w).1 = Except.ok self ∧
      (fs props.filename).readGrid props.fieldname = some grid ∧
      self.resolve (VdbDataSource.construct fs base props w).2.pool = some grid ∧
      ∀ m ∈ ms, FileEvent.readGrid props.filename m.name ∈
        (VdbDataSource.construct fs base props w).2.log := by
  have hok := (openLoop_true_iff (fs props.filename) props.filename ms
      { pool := ⟨insert props.filename ⟨[]⟩ w.pool.m_gridSets⟩,
        bbMin := Vec3d.splat DBL_MAX, bbMax := Vec3d.splat (-DBL_MAX),
        log := FileEvent.fileOpen props.filename :: w.log }).mpr hall
  obtain ⟨gs, hgs, hfind⟩ := openLoop_grids (fs props.filename) props.filename ms
      { pool := ⟨insert props.filename ⟨[]⟩ w.pool.m_gridSets⟩,
        bbMin := Vec3d.splat DBL_MAX, bbMax := Vec3d.splat (-DBL_MAX),
        log := FileEvent.fileOpen props.filename :: w.log } ⟨[]⟩
      (by simp [find_insert_self, hfresh]) hok
  have hreads := openLoop_log_reads (fs props.filename) props.filename ms _ hok
  cases hr : openLoop (fs props.filename) props.filename ms
      { pool := ⟨insert props.filename ⟨[]⟩ w.pool.m_gridSets⟩,
        bbMin := Vec3d.splat DBL_MAX, bbMax := Vec3d.splat (-DBL_MAX),
        log := FileEvent.fileOpen props.filename :: w.log } with
  | mk ok s =>
    rw [hr] at hok hgs hreads
    simp only at hok hgs hreads
    subst hok
    have hfield := hfind props.fieldname
    simp only [find, hlisted, if_true] at hfield
    obtain ⟨m, hm, hname⟩ := List.mem_map.mp hlisted
    have hsome := (hall m hm).2.2
    rw [hname] at hsome
    obtain ⟨grid, hgrid⟩ := Option.isSome_iff_exists.mp hsome
    rw [hgrid] at hfield
    have hc := construct_fresh_of_loop fs base props w ms s gs grid hfresh hopen hmeta hr hgs
      hfield
    refine ⟨_, grid, by rw [hc], hgrid, ?_, ?_⟩
    · rw [hc]
      simp [VdbDataSource.resolve, hgs, hfield]
    · rw [hc]
      exact hreads

theorem field_bound_when_all_readable_witness :
    ∃ (self : VdbDataSource) (grid : GridBase),
      (VdbDataSource.construct exampleFs invalidAABB ⟨"healthy.vdb", "density", none⟩
        emptyWorld).1 = Except.ok self ∧
      healthyFile.readGrid "density" = some grid ∧
      self.resolve (VdbDataSource.construct exampleFs invalidAABB
        ⟨"healthy.vdb", "density", none⟩ emptyWorld).2.pool = some grid ∧
      ∀ m ∈ [densityMeta, temperatureMeta], FileEvent.readGrid "healthy.vdb" m.name ∈
        (VdbDataSource.construct exampleFs invalidAABB ⟨"healthy.vdb", "density", none⟩
          emptyWorld).2.log :=
  field_bound_when_all_readable exampleFs invalidAABB ⟨"healthy.vdb", "density", none⟩
    emptyWorld [densityMeta, temperatureMeta] rfl rfl rfl
    (by simp [GridMeta.readable, densityMeta, temperatureMeta, exampleFs, healthyFile,
      temperature_ne_density])
    (by simp [densityMeta])

end VdbVolume
